import Mathlib

/-!
Verification development for the genai-hackathon repository.

The core under specification is the campaign publishing sequence
(Channel Publisher, Metadata Formatter, Media Resolver, Step Logger,
Campaign Runner).  Its Python sources (scripts/telegram_poster.py,
utilities/logger.py, scripts/test_campaign.py) are not present in the
source snapshot; only the README that documents them is.  Those
components are therefore modelled from the specification text, and the
definitions below say so in their doc comments.  The web front-end
JavaScript (upload pages, login page) is present and is embedded
directly from the source.
-/

/-! ## String containment -/

/-- Substring containment on strings, expressed over the underlying
character lists: `t` occurs verbatim inside `s`. -/
def containsSub (s t : String) : Prop :=
  ∃ pre post : List Char, s.data = pre ++ t.data ++ post

/-- "s starts with t", computed over the underlying character lists
(the executable counterpart of JavaScript's `startsWith`). -/
def strStartsWith (s t : String) : Bool :=
  t.data.isPrefixOf s.data

/-- Strip leading and trailing whitespace, computed over the
underlying character lists (the executable counterpart of
JavaScript's `trim`). -/
def strTrim (s : String) : String :=
  String.mk (((s.data.dropWhile Char.isWhitespace).reverse.dropWhile
    Char.isWhitespace).reverse)

/-- Join a list of strings with a separator.  Modelled from the spec:
the Metadata Formatter's "space-joined" hashtag line and the
line-per-field caption layout both use this joining discipline. -/
def joinSep (sep : String) : List String → String
  | [] => ""
  | [x] => x
  | x :: y :: rest => x ++ sep ++ joinSep sep (y :: rest)

/-! ## Metadata Formatter

Modelled from the spec: the Metadata Formatter lives in the Python
publisher (not in the source snapshot).  Composition rule from §4.2:
primary caption = title + description (each language on its own line
when present) + hashtags (space-joined, each prefixed with "#") +
call-to-action line; absent optional fields omit their line entirely. -/

structure Metadata where
  title : String
  description : Option (List String)
  hashtags : Option (List String)
  cta : String
deriving DecidableEq, Repr

/-- Modelled from the spec: the hashtag line, space-joined, each tag
prefixed with "#". -/
def hashtagLine (hs : List String) : String :=
  joinSep " " (hs.map (fun h => "#" ++ h))

/-- Modelled from the spec: the ordered list of caption lines; an
absent optional field contributes no line at all. -/
def captionLines (m : Metadata) : List String :=
  [m.title]
    ++ (match m.description with
        | some ds => ds
        | none => [])
    ++ (match m.hashtags with
        | some hs => [hashtagLine hs]
        | none => [])
    ++ [m.cta]

/-- Modelled from the spec: the primary (head) caption, one line per
present field. -/
def primaryCaption (m : Metadata) : String :=
  joinSep "\n" (captionLines m)

/-! ## Channel Publisher

Modelled from the spec: the Channel Publisher (scripts/telegram_poster.py)
is not in the source snapshot.  Definitions follow §4.4 of the spec:
head post first, then each secondary item as a reply to the head, in
list order; a head failure aborts with no secondary attempts; secondary
failures are independent; the report status is Complete / Partial /
Aborted.  Log events are modelled as a list in emission order. -/

inductive MediaKind
  | image
  | video
  | document
deriving DecidableEq, Repr

structure MediaItem where
  content : String
  kind : MediaKind
deriving DecidableEq, Repr

/-- Modelled from the spec: a Campaign's ordered media sequence with
the first item designated the head and all others secondary. -/
structure Campaign where
  channel : String
  metadata : Metadata
  head : MediaItem
  secondaries : List MediaItem
deriving DecidableEq, Repr

/-- One request to the messaging surface; `replyTo = none` is a
top-level post, `replyTo = some id` a threaded reply. -/
structure SendReq where
  channel : String
  content : String
  caption : String
  replyTo : Option Nat
deriving DecidableEq, Repr

/-- The surface's response: a message identifier on success, the raw
error body on failure. -/
inductive SendRes
  | ok (messageId : Nat)
  | err (body : String)
deriving DecidableEq, Repr

inductive ItemOutcome
  | succeeded (messageId : Nat)
  | failed (error : String)
deriving DecidableEq, Repr

def isSucceeded : ItemOutcome → Bool
  | .succeeded _ => true
  | .failed _ => false

inductive Status
  | Complete
  | Partial
  | Aborted
deriving DecidableEq, Repr

structure PublishReport where
  head : ItemOutcome
  secondary : List ItemOutcome
  status : Status
deriving DecidableEq, Repr

/-- One structured log event, in emission order within the run's list. -/
inductive Ev
  | startHead
  | doneHead (messageId : Nat)
  | failHead (error : String)
  | startReply (ordinal : Nat)
  | doneReply (ordinal : Nat) (messageId : Nat)
  | failReply (ordinal : Nat) (error : String)
  | failResolve (ordinal : Nat) (error : String)
deriving DecidableEq, Repr

def isReplyEv : Ev → Bool
  | .startReply _ => true
  | .doneReply _ _ => true
  | .failReply _ _ => true
  | _ => false

/-- The head's terminal (DONE or FAIL) log event. -/
def isHeadTerminal : Ev → Bool
  | .doneHead _ => true
  | .failHead _ => true
  | _ => false

/-- The full result of one publisher invocation: the report, the log
events in emission order, and the network requests actually sent in
emission order. -/
structure PublishResult where
  report : PublishReport
  events : List Ev
  sent : List SendReq
deriving DecidableEq, Repr

def mkHeadReq (c : Campaign) : SendReq :=
  { channel := c.channel
    content := c.head.content
    caption := primaryCaption c.metadata
    replyTo := none }

def mkReplyReq (c : Campaign) (headId : Nat) (m : MediaItem) : SendReq :=
  { channel := c.channel
    content := m.content
    caption := ""
    replyTo := some headId }

def outcomeOf : SendRes → ItemOutcome
  | .ok mid => .succeeded mid
  | .err e => .failed e

def replyEvents (i : Nat) : SendRes → List Ev
  | .ok mid => [.startReply i, .doneReply i mid]
  | .err e => [.startReply i, .failReply i e]

/-- Modelled from the spec: post each secondary item in list order as a
reply to the head; a failed item is recorded and the loop continues
with the next item (partial-failure-tolerant fan-out, §4.4 step 3). -/
def postReplies (send : SendReq → SendRes) (c : Campaign) (headId : Nat) :
    List MediaItem → Nat → List ItemOutcome × List Ev × List SendReq
  | [], _ => ([], [], [])
  | m :: rest, i =>
    let req := mkReplyReq c headId m
    let res := send req
    let tail := postReplies send c headId rest (i + 1)
    (outcomeOf res :: tail.1, replyEvents i res ++ tail.2.1, req :: tail.2.2)

/-- Modelled from the spec (§4.4): send the head with the primary
caption; on failure emit FAIL and abort with no secondary attempts; on
success post every secondary as a reply and summarize the outcomes as
Complete / Partial / Aborted. -/
def publish (send : SendReq → SendRes) (c : Campaign) : PublishResult :=
  let headReq := mkHeadReq c
  match send headReq with
  | .err e =>
    { report := { head := .failed e, secondary := [], status := .Aborted }
      events := [.startHead, .failHead e]
      sent := [headReq] }
  | .ok mid =>
    let tail := postReplies send c mid c.secondaries 1
    { report :=
        { head := .succeeded mid
          secondary := tail.1
          status := if tail.1.all isSucceeded then .Complete else .Partial }
      events := .startHead :: .doneHead mid :: tail.2.1
      sent := headReq :: tail.2.2 }

/-! ## Media Resolver

Modelled from the spec (§4.1): the Media Resolver lives in the Python
publisher, which is not in the source snapshot.  An unreadable path is
a MediaUnreadable failure for that item; a readable file whose kind is
not recognized as image or video is passed through with kind
`document`, never failed. -/

/-- Image extensions accepted by the repository (README: jpg/png plus
web formats). -/
def imageExts : List String := ["jpg", "jpeg", "png", "webp"]

/-- Video extensions accepted by the repository (README: mp4/webm). -/
def videoExts : List String := ["mp4", "webm"]

/-- The file-extension component of a path: the text after the last
dot, or the whole path when there is no dot. -/
def extOf (p : String) : String :=
  String.mk ((p.data.reverse.takeWhile (fun c => c != '.')).reverse)

/-- Modelled from the spec: detect kind from the file extension; an
unknown kind is not fatal and becomes `document`. -/
def resolveKind (ext : String) : MediaKind :=
  if imageExts.contains ext then .image
  else if videoExts.contains ext then .video
  else .document

/-- Modelled from the spec: resolve one path against a file system
(`fs path = none` means unreadable) into a postable Media Item, or a
MediaUnreadable error carrying the path. -/
def resolveItem (fs : String → Option String) (p : String) :
    Except String MediaItem :=
  match fs p with
  | none => .error ("MediaUnreadable: " ++ p)
  | some bytes => .ok { content := bytes, kind := resolveKind (extOf p) }

/-- Embedded from src/web/upload/app.js (`detectMimeFromBase64`, the
dashboard thumbnail helper): classify a base64 payload by its magic
header, defaulting unknown payloads to "image/jpeg". -/
def detectMimeFromBase64 (b64 : String) : String :=
  let head := String.mk (b64.data.take 5)
  if strStartsWith head "/9j/" then "image/jpeg"
  else if strStartsWith head "iVBOR" then "image/png"
  else if strStartsWith head "UklGR" || strStartsWith head "RIFF" then "image/webp"
  else "image/jpeg"

/-! ## Campaign Runner

Modelled from the spec (§4.5, §6, §7): configuration comes from the
environment; a missing bot credential, missing channel identifier or
empty media list is a PreconditionError reported before any network
call and before any log destination is created, with a distinct
non-zero exit code.  Otherwise the runner resolves media (an
unresolvable head aborts; an unresolvable secondary is skipped and
logged), opens the log and drives the publisher once. -/

structure Config where
  token : Option String
  channel : Option String
deriving DecidableEq, Repr

def statusExitCode : Status → Nat
  | .Complete => 0
  | .Partial => 1
  | .Aborted => 2

/-- The distinct exit code for precondition failures. -/
def preconditionExitCode : Nat := 3

/-- The observable outcome of one run: exit code, every network
request sent, the log destination (`none` when never created) and the
precondition error message when the run failed its preconditions. -/
structure RunResult where
  exitCode : Nat
  sent : List SendReq
  logFile : Option (List Ev)
  preconditionError : Option String
deriving DecidableEq, Repr

/-- Modelled from the spec (§7): resolve the secondary paths in order;
an unresolvable item is skipped and logged as a resolution failure
while the campaign proceeds with the remaining items. -/
def resolveSecondaries (fs : String → Option String) :
    List String → Nat → List MediaItem × List Ev
  | [], _ => ([], [])
  | p :: ps, i =>
    let tail := resolveSecondaries fs ps (i + 1)
    match resolveItem fs p with
    | .error e => (tail.1, .failResolve i e :: tail.2)
    | .ok it => (it :: tail.1, tail.2)

/-- Modelled from the spec (§4.5): check preconditions, resolve media,
open the log, publish once, and map the report status to an exit
code. -/
def runCampaign (cfg : Config) (meta : Metadata) (paths : List String)
    (fs : String → Option String) (send : SendReq → SendRes) : RunResult :=
  match cfg.token with
  | none =>
    { exitCode := preconditionExitCode, sent := [], logFile := none
      preconditionError := some "PreconditionError: Missing TELEGRAM_BOT_TOKEN or TELEGRAM_CHANNEL" }
  | some _ =>
    match cfg.channel with
    | none =>
      { exitCode := preconditionExitCode, sent := [], logFile := none
        preconditionError := some "PreconditionError: Missing TELEGRAM_BOT_TOKEN or TELEGRAM_CHANNEL" }
    | some ch =>
      match paths with
      | [] =>
        { exitCode := preconditionExitCode, sent := [], logFile := none
          preconditionError := some "PreconditionError: empty media list" }
      | headPath :: rest =>
        match resolveItem fs headPath with
        | .error e =>
          { exitCode := statusExitCode .Aborted, sent := []
            logFile := some [.failResolve 0 e], preconditionError := none }
        | .ok head =>
          let sec := resolveSecondaries fs rest 1
          let r := publish send
            { channel := ch, metadata := meta, head := head, secondaries := sec.1 }
          { exitCode := statusExitCode r.report.status, sent := r.sent
            logFile := some (sec.2 ++ r.events), preconditionError := none }

/-! ## Upload pages (embedded from source)

src/web/upload/app.js keeps a `selectedFiles` array; `handleFiles`
filters a batch to image files of at most 5 MB and rejects the whole
batch when it would push the total past 5.  src/web/upload/photos.js
keeps a `pickedFiles` array; its `handleFiles` truncates each incoming
batch to the room left below 5. -/

/-- A browser `File` as the upload pages inspect it: its MIME type
string and its size in bytes. -/
structure WFile where
  mime : String
  size : Nat
deriving DecidableEq, Repr

/-- Embedded from src/web/upload/app.js (`handleFiles` filter): keep a
file only when its type starts with "image/" and it is at most 5 MB. -/
def isValidUploadFile (f : WFile) : Bool :=
  strStartsWith f.mime "image/" && !(f.size > 5 * 1024 * 1024)

/-- Embedded from src/web/upload/app.js (`handleFiles`): filter the
batch, reject it entirely when the total would exceed 5, otherwise
append. -/
def handleFilesUpload (selected files : List WFile) : List WFile :=
  let valid := files.filter isValidUploadFile
  if selected.length + valid.length > 5 then selected
  else selected ++ valid

/-- Embedded from src/web/upload/app.js (`removeImage`): splice one
index out of the selected list. -/
def removeImage (selected : List WFile) (i : Nat) : List WFile :=
  selected.eraseIdx i

/-- Embedded from src/web/upload/photos.js (`handleFiles`): take at
most the room left below 5 from the incoming batch and append it.
JavaScript's `Math.max(0, 5 - length)` is `Nat` truncated
subtraction. -/
def handleFilesPhotos (picked files : List WFile) : List WFile :=
  let room := 5 - picked.length
  picked ++ files.take room

/-! ## Login page (embedded from source)

src/web/auth/app.js: the send-otp handler trims the three inputs,
stops with a notice unless first and last name are nonempty, the phone
is nonempty and the phone is exactly 10 characters, and only then
requests an OTP for "+91" + phone; the verify-otp handler stores
"+91" + trimmed phone into the user profile. -/

structure LoginForm where
  firstName : String
  lastName : String
  phone : String
deriving DecidableEq, Repr

/-- Embedded from src/web/auth/app.js (send-otp onclick): `some p`
when an OTP request is made for phone number `p`, `none` when a
validation notice stops the handler before any request. -/
def sendOtpPhone (f : LoginForm) : Option String :=
  if strTrim f.firstName = "" ∨ strTrim f.lastName = "" then none
  else if strTrim f.phone = "" then none
  else if (strTrim f.phone).length ≠ 10 then none
  else some ("+91" ++ strTrim f.phone)

/-- Embedded from src/web/auth/app.js (verify-otp onclick): the phone
number written into the users document is "+91" + the trimmed phone
field. -/
def storedProfilePhone (f : LoginForm) : String :=
  "+91" ++ strTrim f.phone

/-! ## Concrete inputs used by the witnesses -/

def diyaMetadata : Metadata :=
  { title := "Hand-painted Diya"
    description := none
    hashtags := some ["diwali", "handmade"]
    cta := "wa.me/911234" }

def demoCampaign : Campaign :=
  { channel := "@prachar_artisans"
    metadata := diyaMetadata
    head := { content := "img1", kind := .image }
    secondaries := [{ content := "img2", kind := .image },
                    { content := "img3", kind := .image }] }

def sendAllOk : SendReq → SendRes := fun _ => .ok 10

def sendHeadFail : SendReq → SendRes := fun _ => .err "Bad Gateway"

/-- A surface that accepts the head and the first secondary but
rejects the item whose content is "img3" (the second secondary of
`demoCampaign`). -/
def sendSecondFails : SendReq → SendRes := fun r =>
  match r.replyTo with
  | none => .ok 7
  | some _ => if r.content = "img3" then .err "Bad Request: chat not found" else .ok 8

def demoFs : String → Option String := fun p =>
  if p = "campaigns/EXAMPLE/assets/img1.jpg" then some "JPGDATA1"
  else if p = "campaigns/EXAMPLE/assets/img2.jpg" then some "JPGDATA2"
  else if p = "notes.txt" then some "PLAINTEXT"
  else none

def cfgMissingToken : Config :=
  { token := none, channel := some "@prachar_artisans" }

def demoJpeg : WFile := { mime := "image/jpeg", size := 2048 }


/-! ## String lemmas -/

theorem containsSub_trans {s t u : String} (h1 : containsSub s t)
    (h2 : containsSub t u) : containsSub s u := by
  obtain ⟨p1, q1, e1⟩ := h1
  obtain ⟨p2, q2, e2⟩ := h2
  exact ⟨p1 ++ p2, q2 ++ q1, by rw [e1, e2]; simp [List.append_assoc]⟩
theorem string_data_append (a b : String) : (a ++ b).data = a.data ++ b.data := rfl

theorem joinSep_two (sep x y : String) (rest : List String) :
    joinSep sep (x :: y :: rest) = x ++ sep ++ joinSep sep (y :: rest) := rfl
theorem containsSub_of_mem_joinSep (sep : String) :
    ∀ (l : List String) (x : String), x ∈ l → containsSub (joinSep sep l) x := by
  intro l
  induction l with
  | nil => intro x hx; cases hx
  | cons a t ih =>
    intro x hx
    cases t with
    | nil =>
      rcases List.mem_cons.mp hx with hx | hx
      · subst hx; exact ⟨[], [], by simp [joinSep]⟩
      · cases hx
    | cons b t2 =>
      rcases List.mem_cons.mp hx with hx | hx
      · subst hx
        refine ⟨[], sep.data ++ (joinSep sep (b :: t2)).data, ?_⟩
        simp [joinSep_two, string_data_append, List.append_assoc]
      · obtain ⟨pre, post, hpp⟩ := ih x hx
        refine ⟨a.data ++ sep.data ++ pre, post, ?_⟩
        simp [joinSep_two, string_data_append, hpp, List.append_assoc]

/-! ## Unfolding lemmas for the publisher -/

theorem publish_err {send : SendReq → SendRes} {c : Campaign} {e : String}
    (h : send (mkHeadReq c) = SendRes.err e) :
    publish send c =
      { report := { head := .failed e, secondary := [], status := .Aborted }
        events := [.startHead, .failHead e]
        sent := [mkHeadReq c] } := by
  simp only [publish, h]

theorem publish_ok {send : SendReq → SendRes} {c : Campaign} {mid : Nat}
    (h : send (mkHeadReq c) = SendRes.ok mid) :
    publish send c =
      { report :=
          { head := .succeeded mid
            secondary := (postReplies send c mid c.secondaries 1).1
            status :=
              if (postReplies send c mid c.secondaries 1).1.all isSucceeded
              then .Complete else .Partial }
        events := .startHead :: .doneHead mid :: (postReplies send c mid c.secondaries 1).2.1
        sent := mkHeadReq c :: (postReplies send c mid c.secondaries 1).2.2 } := by
  simp only [publish, h]

theorem postReplies_outcomes (send : SendReq → SendRes) (c : Campaign) (headId : Nat) :
    ∀ (l : List MediaItem) (i : Nat),
      (postReplies send c headId l i).1
        = l.map (fun m => outcomeOf (send (mkReplyReq c headId m))) := by
  intro l
  induction l with
  | nil => intro i; rfl
  | cons m rest ih => intro i; simp [postReplies, ih]

theorem postReplies_sent (send : SendReq → SendRes) (c : Campaign) (headId : Nat) :
    ∀ (l : List MediaItem) (i : Nat),
      (postReplies send c headId l i).2.2 = l.map (mkReplyReq c headId) := by
  intro l
  induction l with
  | nil => intro i; rfl
  | cons m rest ih => intro i; simp [postReplies, ih]

/-! ## Claims -/

/-- C1: if the head post fails (network error, surface rejection or
timeout, all reported as an `err` response), the publisher aborts: the
status is Aborted, zero secondary outcomes exist, the only network
request ever sent is the head request, no sent request is a reply, and
no reply log event is emitted. -/
theorem head_fail_aborts_no_replies (send : SendReq → SendRes) (c : Campaign)
    (e : String) (h : send (mkHeadReq c) = SendRes.err e) :
    (publish send c).report.status = Status.Aborted ∧
    (publish send c).report.secondary = [] ∧
    (publish send c).sent = [mkHeadReq c] ∧
    (∀ q ∈ (publish send c).sent, q.replyTo = none) ∧
    (∀ ev ∈ (publish send c).events, isReplyEv ev = false) := by
  rw [publish_err h]
  refine ⟨rfl, rfl, rfl, ?_, ?_⟩
  · intro q hq
    simp only [List.mem_singleton] at hq
    simp [hq, mkHeadReq]
  · intro ev hev
    rcases List.mem_cons.mp hev with hev | hev
    · simp [hev, isReplyEv]
    · simp only [List.mem_singleton] at hev
      simp [hev, isReplyEv]

theorem head_fail_aborts_no_replies_wit :
    (publish sendHeadFail demoCampaign).report.status = Status.Aborted ∧
    (publish sendHeadFail demoCampaign).report.secondary = [] := by
  have h := head_fail_aborts_no_replies sendHeadFail demoCampaign
    "Bad Gateway" (by decide)
  exact ⟨h.1, h.2.1⟩

/-- C2: the overall status of a publish run is exactly Complete when
the head and every secondary outcome succeeded, Partial when the head
succeeded and at least one secondary outcome failed, and Aborted when
the head failed. -/
theorem publish_status_trichotomy (send : SendReq → SendRes) (c : Campaign) :
    ((publish send c).report.status = Status.Complete ↔
      isSucceeded (publish send c).report.head = true ∧
      ∀ o ∈ (publish send c).report.secondary, isSucceeded o = true) ∧
    ((publish send c).report.status = Status.Partial ↔
      isSucceeded (publish send c).report.head = true ∧
      ∃ o ∈ (publish send c).report.secondary, isSucceeded o = false) ∧
    ((publish send c).report.status = Status.Aborted ↔
      isSucceeded (publish send c).report.head = false) := by
  cases hs : send (mkHeadReq c) with
  | err e =>
    rw [publish_err hs]
    refine ⟨?_, ?_, ?_⟩ <;> simp [isSucceeded]
  | ok mid =>
    rw [publish_ok hs]
    by_cases hall : ((postReplies send c mid c.secondaries 1).1.all isSucceeded) = true
    · have hforall := List.all_eq_true.mp hall
      rw [if_pos hall]
      refine ⟨?_, ?_, ?_⟩
      · exact ⟨fun _ => ⟨rfl, fun o ho => hforall o ho⟩, fun _ => rfl⟩
      · constructor
        · intro h; simp at h
        · rintro ⟨-, o, ho, hfo⟩
          exact absurd (hforall o ho) (by simp [hfo])
      · constructor
        · intro h; simp at h
        · intro h; simp [isSucceeded] at h
    · have hex : ∃ o ∈ (postReplies send c mid c.secondaries 1).1,
          isSucceeded o = false := by
        have hnot : ¬ ∀ o ∈ (postReplies send c mid c.secondaries 1).1,
            isSucceeded o = true := fun hfa => hall (List.all_eq_true.mpr hfa)
        push_neg at hnot
        obtain ⟨o, ho, hno⟩ := hnot
        exact ⟨o, ho, by simpa using hno⟩
      rw [if_neg hall]
      refine ⟨?_, ?_, ?_⟩
      · constructor
        · intro h; simp at h
        · rintro ⟨-, hfa⟩
          obtain ⟨o, ho, hfo⟩ := hex
          exact absurd (hfa o ho) (by simp [hfo])
      · exact ⟨fun _ => ⟨rfl, hex⟩, fun _ => rfl⟩
      · constructor
        · intro h; simp at h
        · intro h; simp [isSucceeded] at h

theorem publish_status_trichotomy_wit :
    (publish sendAllOk demoCampaign).report.status = Status.Complete := by
  have h := (publish_status_trichotomy sendAllOk demoCampaign).1
  exact h.mpr ⟨by decide, by decide⟩

/-- C3: once the head post succeeded, every secondary item is still
attempted, in list order, and each outcome is exactly the surface's
response for that item — a failure on one item cannot suppress or
alter the attempt for any later item. -/
theorem secondary_fanout_independent (send : SendReq → SendRes) (c : Campaign)
    (mid : Nat) (h : send (mkHeadReq c) = SendRes.ok mid) :
    (publish send c).report.secondary
      = c.secondaries.map (fun m => outcomeOf (send (mkReplyReq c mid m))) ∧
    (publish send c).report.secondary.length = c.secondaries.length ∧
    (publish send c).sent = mkHeadReq c :: c.secondaries.map (mkReplyReq c mid) := by
  rw [publish_ok h]
  refine ⟨?_, ?_, ?_⟩
  · exact postReplies_outcomes send c mid c.secondaries 1
  · show (postReplies send c mid c.secondaries 1).1.length = c.secondaries.length
    rw [postReplies_outcomes send c mid c.secondaries 1, List.length_map]
  · show mkHeadReq c :: (postReplies send c mid c.secondaries 1).2.2
        = mkHeadReq c :: c.secondaries.map (mkReplyReq c mid)
    rw [postReplies_sent send c mid c.secondaries 1]

theorem secondary_fanout_independent_wit :
    (publish sendSecondFails demoCampaign).report.secondary
      = [ItemOutcome.succeeded 8, ItemOutcome.failed "Bad Request: chat not found"] := by
  have h := (secondary_fanout_independent sendSecondFails demoCampaign 7 (by decide)).1
  rw [h]
  decide

/-- C4: log events are a list in emission order; the head's terminal
DONE/FAIL event sits at position 1, right after the head START, and
every secondary START event sits at position 2 or later — so the
head's DONE or FAIL is always recorded before any secondary START. -/
theorem head_terminal_precedes_reply_start (send : SendReq → SendRes) (c : Campaign) :
    isHeadTerminal ((publish send c).events.getD 1 Ev.startHead) = true ∧
    ∀ j ord, (publish send c).events.get? j = some (Ev.startReply ord) → 2 ≤ j := by
  cases hs : send (mkHeadReq c) with
  | err e =>
    rw [publish_err hs]
    constructor
    · rfl
    · intro j ord hj
      rcases j with _ | _ | j
      · simp at hj
      · simp at hj
      · omega
  | ok mid =>
    rw [publish_ok hs]
    constructor
    · rfl
    · intro j ord hj
      rcases j with _ | _ | j
      · simp at hj
      · simp at hj
      · omega

theorem head_terminal_precedes_reply_start_wit :
    isHeadTerminal ((publish sendAllOk demoCampaign).events.getD 1 Ev.startHead) = true ∧
    2 ≤ 2 := by
  have h := head_terminal_precedes_reply_start sendAllOk demoCampaign
  exact ⟨h.1, h.2 2 1 (by decide)⟩

/-- C5: when the bot credential or the channel identifier is missing
from the configuration, or the media list is empty, the run fails with
a PreconditionError and the distinct non-zero precondition exit code,
no network request is ever sent, and no log destination is created. -/
theorem missing_config_precondition_aborts (cfg : Config) (meta : Metadata)
    (paths : List String) (fs : String → Option String) (send : SendReq → SendRes)
    (h : cfg.token = none ∨ cfg.channel = none ∨ paths = []) :
    (runCampaign cfg meta paths fs send).exitCode = preconditionExitCode ∧
    (runCampaign cfg meta paths fs send).exitCode ≠ 0 ∧
    (runCampaign cfg meta paths fs send).sent = [] ∧
    (runCampaign cfg meta paths fs send).logFile = none ∧
    (runCampaign cfg meta paths fs send).preconditionError ≠ none := by
  rcases h with h | h | h
  · simp [runCampaign, h, preconditionExitCode]
  · cases htok : cfg.token <;>
      simp [runCampaign, htok, h, preconditionExitCode]
  · cases htok : cfg.token <;> cases hch : cfg.channel <;>
      simp [runCampaign, htok, hch, h, preconditionExitCode]

theorem missing_config_precondition_aborts_wit :
    (runCampaign cfgMissingToken diyaMetadata
      ["campaigns/EXAMPLE/assets/img1.jpg"] demoFs sendAllOk).logFile = none ∧
    (runCampaign cfgMissingToken diyaMetadata
      ["campaigns/EXAMPLE/assets/img1.jpg"] demoFs sendAllOk).exitCode ≠ 0 := by
  have h := missing_config_precondition_aborts cfgMissingToken diyaMetadata
    ["campaigns/EXAMPLE/assets/img1.jpg"] demoFs sendAllOk (Or.inl rfl)
  exact ⟨h.2.2.2.1, h.2.1⟩

/-- C6: for every metadata record with a hashtags list present, the
primary caption contains the title verbatim, every hashtag prefixed
with "#", and the call-to-action link, as verbatim substrings. -/
theorem caption_contains_required_fields (m : Metadata) (hs : List String)
    (hhs : m.hashtags = some hs) :
    containsSub (primaryCaption m) m.title ∧
    (∀ h ∈ hs, containsSub (primaryCaption m) ("#" ++ h)) ∧
    containsSub (primaryCaption m) m.cta := by
  refine ⟨?_, ?_, ?_⟩
  · exact containsSub_of_mem_joinSep "\n" (captionLines m) m.title
      (by simp [captionLines])
  · intro h hmem
    have h1 : containsSub (hashtagLine hs) ("#" ++ h) :=
      containsSub_of_mem_joinSep " " (hs.map (fun x => "#" ++ x)) ("#" ++ h)
        (List.mem_map_of_mem _ hmem)
    have h2 : containsSub (primaryCaption m) (hashtagLine hs) :=
      containsSub_of_mem_joinSep "\n" (captionLines m) (hashtagLine hs)
        (by simp [captionLines, hhs])
    exact containsSub_trans h2 h1
  · exact containsSub_of_mem_joinSep "\n" (captionLines m) m.cta
      (by simp [captionLines])

theorem caption_contains_required_fields_wit :
    containsSub (primaryCaption diyaMetadata) "Hand-painted Diya" ∧
    containsSub (primaryCaption diyaMetadata) "#diwali" ∧
    containsSub (primaryCaption diyaMetadata) "#handmade" ∧
    containsSub (primaryCaption diyaMetadata) "wa.me/911234" := by
  have h := caption_contains_required_fields diyaMetadata ["diwali", "handmade"] rfl
  have hd := h.2.1 "diwali" (by simp)
  have hh := h.2.1 "handmade" (by simp)
  have e1 : ("#" ++ "diwali" : String) = "#diwali" := by decide
  have e2 : ("#" ++ "handmade" : String) = "#handmade" := by decide
  rw [e1] at hd
  rw [e2] at hh
  exact ⟨h.1, hd, hh, h.2.2⟩

/-- C7: the Metadata Formatter is a pure function — formatting the
same record twice yields the identical caption — and when the optional
description and hashtags fields are absent, the corresponding lines
are omitted entirely: the caption is exactly title and call-to-action,
with no empty placeholder lines. -/
theorem formatter_deterministic_omits_absent (m : Metadata)
    (hd : m.description = none) (hh : m.hashtags = none) :
    primaryCaption m = primaryCaption m ∧
    captionLines m = [m.title, m.cta] ∧
    primaryCaption m = m.title ++ "\n" ++ m.cta := by
  refine ⟨rfl, ?_, ?_⟩
  · simp [captionLines, hd, hh]
  · simp [primaryCaption, captionLines, hd, hh, joinSep]

theorem formatter_deterministic_omits_absent_wit :
    primaryCaption { title := "Terracotta Vase", description := none,
                     hashtags := none, cta := "wa.me/911234" }
      = "Terracotta Vase" ++ "\n" ++ "wa.me/911234" :=
  (formatter_deterministic_omits_absent
    { title := "Terracotta Vase", description := none,
      hashtags := none, cta := "wa.me/911234" } rfl rfl).2.2

/-- C8: a readable media file whose extension is recognized neither as
an image nor as a video is not failed by the Media Resolver: it is
passed through as a Media Item with kind `document`. -/
theorem unknown_kind_resolves_as_document (fs : String → Option String)
    (p bytes : String) (hread : fs p = some bytes)
    (himg : imageExts.contains (extOf p) = false)
    (hvid : videoExts.contains (extOf p) = false) :
    resolveItem fs p = Except.ok { content := bytes, kind := MediaKind.document } := by
  have h1 : ¬ (extOf p ∈ imageExts) := by simpa using himg
  have h2 : ¬ (extOf p ∈ videoExts) := by simpa using hvid
  simp [resolveItem, hread, resolveKind, h1, h2]

theorem unknown_kind_resolves_as_document_wit :
    resolveItem demoFs "notes.txt"
      = Except.ok { content := "PLAINTEXT", kind := MediaKind.document } :=
  unknown_kind_resolves_as_document demoFs "notes.txt" "PLAINTEXT"
    (by decide) (by decide) (by decide)

theorem handleFilesUpload_length_le {sel : List WFile} (h : sel.length ≤ 5)
    (files : List WFile) : (handleFilesUpload sel files).length ≤ 5 := by
  unfold handleFilesUpload
  by_cases hc : sel.length + (files.filter isValidUploadFile).length > 5
  · rw [if_pos hc]; exact h
  · rw [if_neg hc]
    simp only [List.length_append]
    omega

theorem handleFilesPhotos_length_le {picked : List WFile} (h : picked.length ≤ 5)
    (files : List WFile) : (handleFilesPhotos picked files).length ≤ 5 := by
  unfold handleFilesPhotos
  simp only [List.length_append, List.length_take]
  have hmin : min (5 - picked.length) files.length ≤ 5 - picked.length :=
    Nat.min_le_left _ _
  omega

/-- C9: on the product-upload pages the selected image list never
exceeds 5 after any sequence of add operations, because upload/app.js
rejects any batch that would push the total past 5 and
upload/photos.js truncates each batch to the room left below 5. -/
theorem selected_files_bounded_by_five (batches : List (List WFile))
    (sel files : List WFile) :
    (batches.foldl handleFilesUpload []).length ≤ 5 ∧
    (batches.foldl handleFilesPhotos []).length ≤ 5 ∧
    (5 < sel.length + (files.filter isValidUploadFile).length →
      handleFilesUpload sel files = sel) ∧
    handleFilesPhotos sel files = sel ++ files.take (5 - sel.length) := by
  refine ⟨?_, ?_, ?_, rfl⟩
  · have hstep : ∀ (bs : List (List WFile)) (s : List WFile), s.length ≤ 5 →
        (bs.foldl handleFilesUpload s).length ≤ 5 := by
      intro bs
      induction bs with
      | nil => intro s h; simpa using h
      | cons b t ih =>
        intro s h
        exact ih _ (handleFilesUpload_length_le h b)
    exact hstep batches [] (by simp)
  · have hstep : ∀ (bs : List (List WFile)) (s : List WFile), s.length ≤ 5 →
        (bs.foldl handleFilesPhotos s).length ≤ 5 := by
      intro bs
      induction bs with
      | nil => intro s h; simpa using h
      | cons b t ih =>
        intro s h
        exact ih _ (handleFilesPhotos_length_le h b)
    exact hstep batches [] (by simp)
  · intro h
    unfold handleFilesUpload
    rw [if_pos h]

theorem selected_files_bounded_by_five_wit :
    handleFilesUpload (List.replicate 3 demoJpeg) (List.replicate 4 demoJpeg)
      = List.replicate 3 demoJpeg :=
  (selected_files_bounded_by_five [] (List.replicate 3 demoJpeg)
    (List.replicate 4 demoJpeg)).2.2.1 (by decide)

/-- C10: the login page requests an OTP only when the trimmed phone
input is exactly 10 characters (otherwise the handler stops with a
notice and no request is made), the requested number is "+91" plus the
entered input, and the phone stored into the user profile is likewise
"+91" plus the entered input. -/
theorem otp_requires_ten_digit_phone (f : LoginForm) :
    ((strTrim f.phone).length ≠ 10 → sendOtpPhone f = none) ∧
    (∀ p, sendOtpPhone f = some p →
      p = "+91" ++ strTrim f.phone ∧ (strTrim f.phone).length = 10) ∧
    storedProfilePhone f = "+91" ++ strTrim f.phone := by
  refine ⟨?_, ?_, rfl⟩
  · intro h
    unfold sendOtpPhone
    split_ifs with h1 h2 <;> rfl
  · intro p hp
    unfold sendOtpPhone at hp
    split_ifs at hp with h1 h2 h3
    all_goals first
      | exact Option.noConfusion hp
      | exact ⟨(Option.some.inj hp).symm, not_not.mp h3⟩

theorem otp_requires_ten_digit_phone_wit :
    sendOtpPhone { firstName := "Asha", lastName := "Rao", phone := "12345" } = none :=
  (otp_requires_ten_digit_phone
    { firstName := "Asha", lastName := "Rao", phone := "12345" }).1 (by decide)
